import Mathlib

/-!
Verification development for the QuantPulse backend data-serving core:
the cache service (TTL store, request coalescer, stale-while-revalidate
orchestration), the provider fallback chain, the synthetic demo-data
generator, and the stock-service symbol handling.

Each Python component is shallowly embedded as an executable Lean
definition. Machine floats are modelled as rationals, fallible Python
code returns Except, and the asyncio/threading interaction of the
request coalescer is modelled as an explicit small-step machine with
the deterministic FIFO scheduling of a single-threaded event loop.
-/

namespace QuantPulse

/-! ## Python primitives -/

/-- Exceptions raised by the modelled Python code. -/
inductive PyErr where
  | valueError (msg : String)
  | zeroDivisionError
  | indexError
  | providerError (msg : String)
  deriving Repr, DecidableEq

/-- A draw of the random.random primitive, which always lies in [0, 1). -/
def UnitDraw (u : ℚ) : Prop := 0 ≤ u ∧ u < 1

/-- Python division, raising ZeroDivisionError on a zero denominator. -/
def pyDiv (a b : ℚ) : Except PyErr ℚ :=
  if b = 0 then .error .zeroDivisionError else .ok (a / b)

/-- Python round(x, 2): round half to even at two decimal places.
    Models the numeric value; binary-float representation error is out of scope. -/
def pyRound2 (x : ℚ) : ℚ :=
  let y := x * 100
  let n : ℤ := ⌊y⌋
  let frac := y - (n : ℚ)
  let r : ℤ :=
    if frac < 1/2 then n
    else if 1/2 < frac then n + 1
    else if n % 2 = 0 then n else n + 1
  (r : ℚ) / 100

/-- Python int(x): truncation toward zero. -/
def pyTrunc (x : ℚ) : ℤ :=
  if 0 ≤ x then ⌊x⌋ else ⌈x⌉

/-- random.uniform(a, b) given the underlying unit draw u: a + (b - a) * u. -/
def pyUniform (a b u : ℚ) : ℚ := a + (b - a) * u

/-- random.randint(a, b) given the underlying unit draw u: an integer in [a, b]
    when a ≤ b and u lies in [0, 1). -/
def pyRandint (a b : ℕ) (u : ℚ) : ℕ :=
  a + (⌊u * ((b : ℚ) - (a : ℚ) + 1)⌋).toNat

/-- random.choice on a list given the underlying unit draw u; IndexError on an
    empty list (as in Python). -/
def pyChoice (l : List String) (u : ℚ) : Except PyErr String :=
  match l.get? (⌊u * (l.length : ℚ)⌋).toNat with
  | some x => .ok x
  | none => .error .indexError

/-- str.upper, modelled for ASCII strings. -/
def pyUpper (s : String) : String := ⟨s.data.map Char.toUpper⟩

/-- str.lower, modelled for ASCII strings. -/
def pyLower (s : String) : String := ⟨s.data.map Char.toLower⟩

/-- str.endswith(suffix). -/
def pyEndsWith (s suffix : String) : Bool := suffix.data.isSuffixOf s.data

/-- The characters Python str.strip removes by default. -/
def pyWhitespaceChar (c : Char) : Bool :=
  c == ' ' || c == '\t' || c == '\n' || c == '\r' || c == '\x0b' || c == '\x0c'

/-- str.strip(): drop surrounding whitespace. -/
def pyStrip (s : String) : String :=
  ⟨((s.data.dropWhile pyWhitespaceChar).reverse.dropWhile pyWhitespaceChar).reverse⟩

/-- str.isalnum(), modelled for ASCII strings: nonempty and every character a
    letter or digit. -/
def pyIsAlnum (s : String) : Bool :=
  !s.isEmpty && s.data.all Char.isAlphanum

/-! ## Cache store and orchestrator (app/services/cache_service.py)

The store is a cachetools TTLCache created as TTLCache(maxsize, ttl=3600).
An item is present iff the current time is strictly below its recorded
eviction time, which TTLCache stamps as insertion time plus the ttl OF THE
CACHE OBJECT the item is inserted into. -/

/-- CacheEntry dataclass (cache_service.py lines 26-32). -/
structure CacheEntry (α : Type) where
  data : α
  timestamp : ℚ
  ttl : ℕ
  is_stale : Bool
  deriving Repr, DecidableEq

/-- One TTLCache slot: the stored entry and its eviction time. -/
structure Slot (α : Type) where
  entry : CacheEntry α
  expires : ℚ
  deriving Repr, DecidableEq

/-- The TTLCache contents: an association list with unique keys (a Python dict). -/
def Store (α : Type) := List (String × Slot α)

instance (α : Type) [DecidableEq α] : DecidableEq (Store α) :=
  inferInstanceAs (DecidableEq (List (String × Slot α)))

/-- TTLCache.get: the slot value if present and not yet expired, else None.
    cachetools treats a slot as expired once its eviction time is ≤ now. -/
def storeGet {α : Type} (s : Store α) (k : String) (now : ℚ) : Option (CacheEntry α) :=
  match s.find? (fun p => p.1 == k) with
  | none => none
  | some p => if p.2.expires ≤ now then none else some p.2.entry

/-- TTLCache item insertion: replaces any binding of the key. -/
def storeSet {α : Type} (s : Store α) (k : String) (e : CacheEntry α) (expires : ℚ) : Store α :=
  (k, ⟨e, expires⟩) :: s.filter (fun p => !(p.1 == k))

/-- TTLCache membership test (consults expiry, like the lookup). -/
def storeContains {α : Type} (s : Store α) (k : String) (now : ℚ) : Bool :=
  (storeGet s k now).isSome

/-- del cache[k]: remove the binding of k. -/
def storeDel {α : Type} (s : Store α) (k : String) : Store α :=
  s.filter (fun p => !(p.1 == k))

/-- CACHE_SETTINGS (cache_service.py lines 92-96). -/
def CACHE_SETTINGS : List (String × ℕ) :=
  [("stock_quote", 60), ("historical_data", 300), ("company_profile", 86400)]

/-- CACHE_SETTINGS.get(cache_type, 3600) (line 136). -/
def cacheSettingsGet (cache_type : String) : ℕ :=
  match CACHE_SETTINGS.find? (fun p => p.1 == cache_type) with
  | some p => p.2
  | none => 3600

/-- The ttl of the main TTLCache object (line 105: TTLCache(maxsize, ttl=3600)). -/
def defaultStoreTtl : ℕ := 3600

/-- _build_cache_key (lines 239-244). The md5 hexdigest prefix is abstracted as
    the function h; it only ever feeds the middle component of the key. -/
def buildCacheKey (h : String → String) (cache_type key : String) : String :=
  cache_type ++ ":" ++ h (cache_type ++ ":" ++ key) ++ ":" ++ key

/-- _get_cache_entry (lines 167-186): fetch from the store and mark the entry
    stale when its age exceeds its own ttl. The source mutates the flag on the
    shared entry object; under forward-moving time the flag equals the
    recomputed condition, so returning the updated copy is equivalent. -/
def getCacheEntry {α : Type} (cache : Store α) (cache_key : String) (now : ℚ) :
    Option (CacheEntry α) :=
  match storeGet cache cache_key now with
  | none => none
  | some entry =>
      if (entry.ttl : ℚ) < now - entry.timestamp then
        some { entry with is_stale := true }
      else
        some entry

/-- _set_cache_entry (lines 188-212). The source builds a throwaway
    TTLCache(maxsize=1, ttl=2*ttl), puts the entry in it, and calls
    self.cache.update(temp_cache). MutableMapping.update re-inserts through the
    MAIN cache item assignment, which stamps the eviction time with the main
    cache ttl (3600), so the extended 2*ttl horizon announced in the comments
    of the source never takes effect. -/
def setCacheEntry {α : Type} (cache : Store α) (cache_key : String) (data : α)
    (ttl : ℕ) (now : ℚ) : Store α :=
  let entry : CacheEntry α := ⟨data, now, ttl, false⟩
  storeSet cache cache_key entry (now + (defaultStoreTtl : ℚ))

/-- A queued background refresh task (cache_key, cache_type, key, ttl). -/
structure RefreshTask where
  cache_key : String
  cache_type : String
  key : String
  ttl : ℕ
  deriving Repr, DecidableEq

/-- The mutable state of the CacheService as seen by a sequential caller:
    the store, the queue of not-yet-run background refresh tasks, and the
    number of producer (fetch_func) invocations so far. -/
structure CacheState (α : Type) where
  cache : Store α
  tasks : List RefreshTask
  producerCalls : ℕ

/-- The fetch path of get_or_fetch (lines 156-165), sequential semantics for a
    single caller: with no pending entry the coalescer runs fetch_func itself.
    Invocation number i of the producer yields producer i. On success the value
    is stored; on failure the error propagates and nothing is stored. -/
def getOrFetchMiss {α : Type} (producer : ℕ → Except PyErr α) (st : CacheState α)
    (cache_key : String) (ttl : ℕ) (now : ℚ) : Except PyErr α × CacheState α :=
  match producer st.producerCalls with
  | .ok v =>
      (.ok v, { st with cache := setCacheEntry st.cache cache_key v ttl now,
                        producerCalls := st.producerCalls + 1 })
  | .error e =>
      (.error e, { st with producerCalls := st.producerCalls + 1 })

/-- get_or_fetch (lines 111-165), sequential semantics for a single caller.
    Fresh entries are returned directly; stale entries are returned and a
    background refresh task is queued (when stale-while-revalidate is on);
    otherwise the fetch path runs. -/
def getOrFetch {α : Type} (h : String → String) (producer : ℕ → Except PyErr α)
    (st : CacheState α) (cache_type key : String) (swr : Bool) (now : ℚ) :
    Except PyErr α × CacheState α :=
  let cache_key := buildCacheKey h cache_type key
  let ttl := cacheSettingsGet cache_type
  match getCacheEntry st.cache cache_key now with
  | some entry =>
      if entry.is_stale = false then
        (.ok entry.data, st)
      else if swr then
        (.ok entry.data,
         { st with tasks := st.tasks ++ [⟨cache_key, cache_type, key, ttl⟩] })
      else
        getOrFetchMiss producer st cache_key ttl now
  | none => getOrFetchMiss producer st cache_key ttl now

/-- n repeated get_or_fetch calls with the same arguments, collecting results. -/
def getOrFetchIter {α : Type} (h : String → String) (producer : ℕ → Except PyErr α)
    (cache_type key : String) (swr : Bool) (now : ℚ) :
    ℕ → CacheState α → List (Except PyErr α) × CacheState α
  | 0, st => ([], st)
  | n + 1, st =>
      let r := getOrFetch h producer st cache_type key swr now
      let rest := getOrFetchIter h producer cache_type key swr now n r.2
      (r.1 :: rest.1, rest.2)

/-- Run one queued background refresh (refresh_task, lines 223-230): it awaits
    fetch_func DIRECTLY - the coalescer is not consulted - then stores the
    fresh value on success; a failure is only logged. -/
def runTask {α : Type} (producer : ℕ → Except PyErr α) (now : ℚ)
    (st : CacheState α) (t : RefreshTask) : CacheState α :=
  match producer st.producerCalls with
  | .ok v =>
      { st with cache := setCacheEntry st.cache t.cache_key v t.ttl now,
                producerCalls := st.producerCalls + 1 }
  | .error _ =>
      { st with producerCalls := st.producerCalls + 1 }

/-- Drain the queued background refresh tasks in order. -/
def runTasks {α : Type} (producer : ℕ → Except PyErr α) (now : ℚ)
    (st : CacheState α) : CacheState α :=
  st.tasks.foldl (runTask producer now) { st with tasks := [] }

/-- invalidate (lines 246-254): delete the built key if it is present. -/
def invalidate {α : Type} (h : String → String) (st : CacheState α)
    (cache_type key : String) (now : ℚ) : CacheState α :=
  let cache_key := buildCacheKey h cache_type key
  if storeContains st.cache cache_key now then
    { st with cache := storeDel st.cache cache_key }
  else
    st

/-! ## Request coalescer under concurrency (cache_service.py lines 35-76)

RequestCoalescer.coalesce guards its pending-request dict with a
threading.Lock, and a caller that finds a pending entry performs
"return await self._pending_requests[key]" INSIDE the with-block, so it
holds the thread lock across its await. We model two overlapping callers A
and B sharing one key together with the fetch task T on a single-threaded
asyncio event loop. Scheduling is the deterministic FIFO of asyncio: the
ready queue is served front-first, a completed future schedules its await
callbacks in registration order, and a blocking lock acquire on the event
loop thread halts the whole loop (no other thread can ever release the
lock), which we record as a stuck machine. -/

/-- The coroutines of the two-caller setting: callers A and B and the fetch
    task T created by asyncio.create_task(fetch_func()). -/
inductive Tid where
  | A
  | B
  | T
  deriving Repr, DecidableEq

/-- Where a suspended caller resumes: after its await of the shared future.
    holdsLock records whether it still owns the thread lock there (true for
    the caller that awaited inside the with-block, line 63). -/
structure Resume where
  holdsLock : Bool
  deriving Repr, DecidableEq

/-- The machine state for the coalescing of two concurrent callers. -/
structure CoState (α : Type) where
  ready : List Tid
  lockHolder : Option Tid
  pending : Bool
  futureResult : Option α
  callbacks : List Tid
  producerRuns : ℕ
  resumeA : Option Resume
  resumeB : Option Resume
  doneA : Option α
  doneB : Option α
  stuck : Bool

/-- Run caller c from the top of coalesce (line 59): acquire the lock
    (blocking the whole thread - stuck - if another coroutine holds it),
    then either await the pending future while keeping the lock (lines 60-63)
    or install the fetch task, release the lock and await it (lines 65-71). -/
def runCallerStart {α : Type} (c : Tid) (s : CoState α) : CoState α :=
  match s.lockHolder with
  | some _ => { s with stuck := true }
  | none =>
      if s.pending then
        match s.futureResult with
        | some v =>
            match c with
            | .A => { s with doneA := some v }
            | _ => { s with doneB := some v }
        | none =>
            match c with
            | .A => { s with lockHolder := some .A, callbacks := s.callbacks ++ [Tid.A],
                             resumeA := some ⟨true⟩ }
            | _ => { s with lockHolder := some .B, callbacks := s.callbacks ++ [Tid.B],
                             resumeB := some ⟨true⟩ }
      else
        match s.futureResult with
        | some v =>
            match c with
            | .A => { s with pending := true, ready := s.ready ++ [Tid.T], doneA := some v }
            | _ => { s with pending := true, ready := s.ready ++ [Tid.T], doneB := some v }
        | none =>
            match c with
            | .A => { s with pending := true, ready := s.ready ++ [Tid.T],
                             callbacks := s.callbacks ++ [Tid.A], resumeA := some ⟨false⟩ }
            | _ => { s with pending := true, ready := s.ready ++ [Tid.T],
                             callbacks := s.callbacks ++ [Tid.B], resumeB := some ⟨false⟩ }

/-- Resume caller c after its await of the future completed with value v.
    A waiter (held the lock across the await) returns the value, releasing the
    lock as the with-block exits (line 63). The installing caller executes the
    finally block (lines 73-76): it must re-acquire the lock to pop the pending
    entry; if another coroutine holds the lock, the blocking acquire halts the
    event loop thread for good. -/
def runCallerResume {α : Type} (c : Tid) (r : Resume) (v : α) (s : CoState α) : CoState α :=
  if r.holdsLock then
    match c with
    | .A => { s with lockHolder := none, doneA := some v }
    | _ => { s with lockHolder := none, doneB := some v }
  else
    match s.lockHolder with
    | some _ => { s with stuck := true }
    | none =>
        match c with
        | .A => { s with pending := false, doneA := some v }
        | _ => { s with pending := false, doneB := some v }

/-- Run the fetch task: the producer executes once, the future completes with
    value v, and the registered await callbacks are scheduled in order. -/
def runFetchTask {α : Type} (v : α) (s : CoState α) : CoState α :=
  { s with producerRuns := s.producerRuns + 1,
           futureResult := some v,
           ready := s.ready ++ s.callbacks,
           callbacks := [] }

/-- Dispatch the coroutine at the front of the ready queue. -/
def coDispatch {α : Type} (v : α) (c : Tid) (s : CoState α) : CoState α :=
  match c with
  | .T => runFetchTask v s
  | .A =>
      match s.resumeA with
      | none => runCallerStart .A s
      | some r =>
          match s.futureResult with
          | some fv => runCallerResume .A r fv s
          | none => runCallerStart .A s
  | .B =>
      match s.resumeB with
      | none => runCallerStart .B s
      | some r =>
          match s.futureResult with
          | some fv => runCallerResume .B r fv s
          | none => runCallerStart .B s

/-- One event-loop step: serve the front of the ready queue. A stuck machine
    (a coroutine blocked on the thread lock) makes no further progress. -/
def coStep {α : Type} (v : α) (s : CoState α) : CoState α :=
  if s.stuck then s
  else
    match s.ready with
    | [] => s
    | c :: rest => coDispatch v c { s with ready := rest }

/-- Iterate the event loop n steps. -/
def coRun {α : Type} (v : α) : ℕ → CoState α → CoState α
  | 0, s => s
  | n + 1, s => coRun v n (coStep v s)

/-- Two concurrent calls to coalesce with the same key: both caller coroutines
    are ready, nothing else has happened yet. -/
def coInit (α : Type) : CoState α :=
  { ready := [Tid.A, Tid.B], lockHolder := none, pending := false,
    futureResult := none, callbacks := [], producerRuns := 0,
    resumeA := none, resumeB := none, doneA := none, doneB := none, stuck := false }

/-! ## Normalized data records (app/providers/base.py) -/

/-- StockQuote schema (base.py lines 14-26). Prices are modelled as rationals. -/
structure StockQuote where
  symbol : String
  price : ℚ
  change : ℚ
  percent_change : ℚ
  volume : ℤ
  timestamp : String
  is_demo : Bool
  currency : String
  exchange : String
  market_state : String
  previous_close : ℚ
  deriving Repr, DecidableEq

/-- The Indian-style magnitude bucket produced by _format_large_number: the
    unit chosen by the branch and the scaled amount shown before it. -/
inductive IndianAmount where
  | lakhCr (amount : ℚ)
  | thousandCr (amount : ℚ)
  | cr (amount : ℚ)
  | lakh (amount : ℚ)
  | plain (amount : ℚ)
  deriving Repr, DecidableEq

/-- CompanyProfile schema (base.py lines 29-40). -/
structure CompanyProfile where
  symbol : String
  name : String
  description : Option String
  sector : Option String
  industry : Option String
  market_cap : Option ℚ
  market_cap_formatted : Option IndianAmount
  employees : Option ℕ
  website : Option String
  is_demo : Bool
  deriving Repr, DecidableEq

/-- One OHLCV point of a historical series. The calendar date is abstracted as
    its day number (the strftime rendering carries no further information). -/
structure PricePoint where
  date : ℤ
  openPrice : ℚ
  high : ℚ
  low : ℚ
  close : ℚ
  volume : ℤ
  deriving Repr, DecidableEq

/-- HistoricalData schema (base.py lines 43-48). -/
structure HistoricalData where
  symbol : String
  data : List PricePoint
  period : String
  is_demo : Bool
  deriving Repr, DecidableEq

/-! ## Synthetic demo data (app/services/demo_data_service.py) -/

/-- One row of the STOCK_DATABASE reference table. -/
structure StockInfo where
  name : String
  base_price : ℚ
  volatility : ℚ
  volume_lo : ℕ
  volume_hi : ℕ
  market_cap : ℚ
  sector : String
  industry : String
  description : String
  deriving Repr, DecidableEq

/-- STOCK_DATABASE (demo_data_service.py lines 32-133), values verbatim. -/
def STOCK_DATABASE : List (String × StockInfo) :=
  [("RELIANCE",
    ⟨"Reliance Industries Limited", 2950, 1/50, 5000000, 15000000, 19500000000000,
     "Oil & Gas", "Refineries",
     "India largest private sector company with interests in petrochemicals, oil & gas, telecom and retail."⟩),
   ("TCS",
    ⟨"Tata Consultancy Services Limited", 4200, 3/200, 2000000, 8000000, 15400000000000,
     "Information Technology", "IT Services",
     "Leading global IT services, consulting and business solutions organization."⟩),
   ("HDFCBANK",
    ⟨"HDFC Bank Limited", 1750, 9/500, 3000000, 12000000, 13200000000000,
     "Financial Services", "Private Sector Bank",
     "India largest private sector bank offering a wide range of banking and financial services."⟩),
   ("INFY",
    ⟨"Infosys Limited", 1850, 1/50, 4000000, 10000000, 7800000000000,
     "Information Technology", "IT Services",
     "Global leader in next-generation digital services and consulting."⟩),
   ("ICICIBANK",
    ⟨"ICICI Bank Limited", 1250, 11/500, 8000000, 20000000, 8700000000000,
     "Financial Services", "Private Sector Bank",
     "India second-largest private sector bank providing comprehensive financial services."⟩),
   ("BHARTIARTL",
    ⟨"Bharti Airtel Limited", 1650, 1/40, 6000000, 18000000, 9200000000000,
     "Telecommunication", "Telecom Services",
     "Leading telecommunications company providing mobile, broadband and digital services."⟩),
   ("ITC",
    ⟨"ITC Limited", 485, 3/200, 10000000, 25000000, 6000000000000,
     "FMCG", "Diversified FMCG",
     "Leading Indian conglomerate with interests in FMCG, hotels, paperboards and agri-business."⟩),
   ("SBIN",
    ⟨"State Bank of India", 850, 1/40, 15000000, 35000000, 7600000000000,
     "Financial Services", "Public Sector Bank",
     "India largest public sector bank providing comprehensive banking services."⟩),
   ("LT",
    ⟨"Larsen & Toubro Limited", 3650, 1/50, 1500000, 5000000, 5100000000000,
     "Construction", "Engineering & Construction",
     "Leading Indian multinational engaged in EPC projects, hi-tech manufacturing and services."⟩),
   ("HCLTECH",
    ⟨"HCL Technologies Limited", 1580, 11/500, 2500000, 7000000, 4300000000000,
     "Information Technology", "IT Services",
     "Leading global technology company providing IT services and solutions."⟩)]

/-- The random draws the generic-symbol branch of _get_stock_info consumes, in
    source order: the unit draws behind random.uniform for base_price,
    volatility and market_cap, and behind random.choice for the sector. -/
structure InfoRand where
  uBase : ℚ
  uVol : ℚ
  uCap : ℚ
  uSector : ℚ

/-- _get_stock_info (lines 232-249): the reference row for a known symbol, or
    generated generic data for an unknown one. random.choice may raise only on
    an empty list, so the five-sector choice is modelled through pyChoice. -/
def getStockInfo (symbol : String) (ir : InfoRand) : Except PyErr StockInfo :=
  let symbol_upper := pyUpper symbol
  match STOCK_DATABASE.find? (fun p => p.1 == symbol_upper) with
  | some p => .ok p.2
  | none =>
    match pyChoice
        ["Technology", "Finance", "Healthcare", "Energy", "Consumer Goods"] ir.uSector with
    | .error e => .error e
    | .ok sector =>
      .ok { name := symbol_upper ++ " Limited",
            base_price := pyUniform 100 5000 ir.uBase,
            volatility := pyUniform (3/200) (3/100) ir.uVol,
            volume_lo := 1000000, volume_hi := 10000000,
            market_cap := pyUniform (10 ^ 11) (10 ^ 13) ir.uCap,
            sector := sector, industry := "Diversified",
            description := symbol_upper ++
              " is a leading company in its sector with strong market presence." }

/-- The per-instance hourly price cache of DemoDataService. -/
def PriceCache := List (String × ℚ)

/-- _generate_realistic_price (lines 251-279). The bucket argument is the
    strftime hour stamp of the current time; g is the random.gauss(0,
    volatility) draw. On a cache hit the cached price is returned unchanged;
    otherwise the gauss move is clamped to plus/minus 5 percent, the price is
    clamped to 80-120 percent of base, cached and returned. -/
def generateRealisticPrice (symbol : String) (info : StockInfo) (bucket : String)
    (g : ℚ) (pc : PriceCache) : ℚ × PriceCache :=
  let base_price := info.base_price
  let cache_key := symbol ++ "_" ++ bucket
  match pc.find? (fun p => p.1 == cache_key) with
  | some p => (p.2, pc)
  | none =>
      let price_change_percent := max (-(1/20) : ℚ) (min (1/20) g)
      let new_price := base_price * (1 + price_change_percent)
      let min_price := base_price * (4/5)
      let max_price := base_price * (6/5)
      let new_price := max min_price (min max_price new_price)
      (new_price, (cache_key, new_price) :: pc)

/-- get_demo_quote (lines 139-176). nowIso is the datetime.now().isoformat()
    stamp, bucket the hourly cache bucket, uVolume the unit draw behind
    random.randint on the volume range. Returns the quote and the updated
    price cache of the instance. -/
def getDemoQuote (symbol : String) (ir : InfoRand) (g uVolume : ℚ)
    (nowIso bucket : String) (pc : PriceCache) :
    Except PyErr (StockQuote × PriceCache) :=
  match getStockInfo symbol ir with
  | .error e => .error e
  | .ok stock_info =>
    let r := generateRealisticPrice symbol stock_info bucket g pc
    let current_price := r.1
    let previous_close := stock_info.base_price
    let change := current_price - previous_close
    match pyDiv change previous_close with
    | .error e => .error e
    | .ok ratio =>
      let percent_change := ratio * 100
      let volume := pyRandint stock_info.volume_lo stock_info.volume_hi uVolume
      .ok ({ symbol := pyUpper symbol,
             price := pyRound2 current_price,
             change := pyRound2 change,
             percent_change := pyRound2 percent_change,
             volume := (volume : ℤ),
             timestamp := nowIso,
             previous_close := pyRound2 previous_close,
             currency := "INR", exchange := "NSE", market_state := "REGULAR",
             is_demo := true }, r.2)

/-- days_map of _generate_historical_points (lines 284-296). -/
def daysMap : List (String × ℕ) :=
  [("1d", 1), ("5d", 5), ("1mo", 30), ("3mo", 90), ("6mo", 180), ("1y", 365),
   ("2y", 730), ("5y", 1825), ("10y", 3650), ("ytd", 250), ("max", 1825)]

/-- days_map.get(period, 30) (line 298). -/
def daysFor (period : String) : ℕ :=
  match daysMap.find? (fun p => p.1 == period) with
  | some p => p.2
  | none => 30

/-- The random draw streams one _generate_historical_points run consumes, per
    day index: the gauss draws for the daily move and the intraday high/low
    spreads, and the unit draw behind random.randint for the base volume. -/
structure HistRand where
  gDaily : ℕ → ℚ
  gHigh : ℕ → ℚ
  gLow : ℕ → ℚ
  uVolume : ℕ → ℚ

/-- The day loop of _generate_historical_points (lines 304-338). -/
def genHistPoints (volatility : ℚ) (hr : HistRand) :
    ℕ → ℕ → ℚ → ℤ → List PricePoint
  | 0, _, _, _ => []
  | k + 1, i, current_price, current_date =>
      let daily_change := max (-(1/20) : ℚ) (min (1/20) (hr.gDaily i))
      let open_price := current_price
      let close_price := open_price * (1 + daily_change)
      let high_price := max open_price close_price * (1 + |hr.gHigh i|)
      let low_price := min open_price close_price * (1 - |hr.gLow i|)
      let high_price := max high_price (max open_price close_price)
      let low_price := min low_price (min open_price close_price)
      let base_volume := pyRandint 1000000 5000000 (hr.uVolume i)
      let volume_multiplier := 1 + |daily_change| * 10
      let volume := pyTrunc ((base_volume : ℚ) * volume_multiplier)
      { date := current_date,
        openPrice := pyRound2 open_price, high := pyRound2 high_price,
        low := pyRound2 low_price, close := pyRound2 close_price,
        volume := volume } ::
        genHistPoints volatility hr k (i + 1) close_price (current_date + 1)

/-- _generate_historical_points (lines 281-340). nowDay is the day number of
    datetime.now(); the series starts days before it. The source samples the
    intraday gauss draws with stddev volatility * 0.5 and the daily ones with
    stddev volatility; the draws in hr are those already-scaled samples. -/
def generateHistoricalPoints (base_price volatility : ℚ) (period : String)
    (hr : HistRand) (nowDay : ℤ) : List PricePoint :=
  let days := daysFor period
  genHistPoints volatility hr days 0 base_price (nowDay - days)

/-- get_demo_historical (lines 178-203). -/
def getDemoHistorical (symbol period : String) (ir : InfoRand) (hr : HistRand)
    (nowDay : ℤ) : Except PyErr HistoricalData :=
  match getStockInfo symbol ir with
  | .error e => .error e
  | .ok stock_info =>
    let data_points := generateHistoricalPoints stock_info.base_price
      stock_info.volatility period hr nowDay
    .ok { symbol := pyUpper symbol, data := data_points, period := period,
          is_demo := true }

/-- DemoDataService._format_large_number (lines 342-353): pick the Indian
    magnitude unit by thresholds and scale the value for display. -/
def demoFormatLargeNumber (value : ℚ) : IndianAmount :=
  if 10 ^ 12 ≤ value then .lakhCr (value / 10 ^ 12)
  else if 10 ^ 9 ≤ value then .thousandCr (value / 10 ^ 7)
  else if 10 ^ 7 ≤ value then .cr (value / 10 ^ 7)
  else if 10 ^ 5 ≤ value then .lakh (value / 10 ^ 5)
  else .plain value

/-- get_demo_profile (lines 205-230). uEmployees is the unit draw behind
    random.randint(50000, 500000). -/
def getDemoProfile (symbol : String) (ir : InfoRand) (uEmployees : ℚ) :
    Except PyErr CompanyProfile :=
  match getStockInfo symbol ir with
  | .error e => .error e
  | .ok stock_info =>
    .ok { symbol := pyUpper symbol,
          name := stock_info.name,
          description := some stock_info.description,
          sector := some stock_info.sector,
          industry := some stock_info.industry,
          market_cap := some stock_info.market_cap,
          market_cap_formatted := some (demoFormatLargeNumber stock_info.market_cap),
          employees := some (pyRandint 50000 500000 uEmployees),
          website := some ("https://www." ++ pyLower symbol ++ ".com"),
          is_demo := true }

/-! ## Provider factory (app/providers/provider_factory.py) -/

/-- ProviderMode (provider_factory.py lines 20-25). -/
inductive ProviderMode where
  | auto
  | twelvedata
  | finnhub
  | demo
  deriving Repr, DecidableEq

/-- The outcome of a configured provider call as supplied by the environment;
    none models a provider that is not configured (factory field is None). -/
def ProviderOutcome := Option (Except PyErr StockQuote)

/-- _try_primary_quote / _try_fallback_quote (lines 150-154, 169-174): raise
    when the provider is not configured, else forward its outcome. -/
def tryProviderQuote (p : ProviderOutcome) (msg : String) : Except PyErr StockQuote :=
  match p with
  | none => .error (.providerError msg)
  | some r => r

/-- ProviderFactory._get_demo_quote (lines 191-195): constructs a NEW
    DemoDataService - hence an EMPTY price cache - for every call and serves
    get_demo_quote from it. The updated cache dies with the instance, so it is
    dropped here. -/
def factoryGetDemoQuote (symbol : String) (ir : InfoRand) (g uVolume : ℚ)
    (nowIso bucket : String) : Except PyErr StockQuote :=
  (getDemoQuote symbol ir g uVolume nowIso bucket ([] : PriceCache)).map Prod.fst

/-- ProviderFactory.get_stock_quote (lines 47-82): mode dispatch, and in auto
    mode the chain primary, then fallback, then demo data. -/
def factoryGetStockQuote (mode : ProviderMode)
    (primary fallback : ProviderOutcome) (symbol : String)
    (ir : InfoRand) (g uVolume : ℚ) (nowIso bucket : String) :
    Except PyErr StockQuote :=
  match mode with
  | .demo => factoryGetDemoQuote symbol ir g uVolume nowIso bucket
  | .finnhub => tryProviderQuote fallback "Fallback provider not available"
  | .twelvedata => tryProviderQuote primary "Primary provider not available"
  | .auto =>
      match tryProviderQuote primary "Primary provider not available" with
      | .ok q => .ok q
      | .error _ =>
          match tryProviderQuote fallback "Fallback provider not available" with
          | .ok q => .ok q
          | .error _ => factoryGetDemoQuote symbol ir g uVolume nowIso bucket

/-! ## TwelveData provider (app/providers/twelvedata_provider.py)

One attempt of get_stock_quote (lines 36-81). The wire behaviour of each
HTTP request is supplied by the environment: either a timeout or a response
with a status code and a body. The body is already classified the way the
source inspects it: unparseable JSON, a payload bearing an error or status
key, or parsed quote fields. -/

/-- The parsed fields the normalizer reads from a quote payload. -/
structure QuotePayload where
  close : ℚ
  previous_close : Option ℚ
  volume : ℤ
  market_state : String
  deriving Repr, DecidableEq

/-- What one HTTP request can yield. -/
inductive Body where
  | malformed
  | errPayload
  | fields (q : QuotePayload)
  deriving Repr, DecidableEq

/-- The wire outcome of one request: a timeout or a response. -/
inductive Wire where
  | timeout
  | resp (status : ℕ) (body : Body)
  deriving Repr, DecidableEq

/-- _normalize_quote (lines 176-199). previous_close defaults to the price;
    the percent change guards the division with Python truthiness of the
    denominator. -/
def normalizeQuote (q : QuotePayload) (symbol nowIso : String) : StockQuote :=
  let price := q.close
  let previous_close := q.previous_close.getD price
  let change := price - previous_close
  let percent_change := if previous_close = 0 then 0 else change / previous_close * 100
  { symbol := pyUpper symbol,
    price := pyRound2 price,
    change := pyRound2 change,
    percent_change := pyRound2 percent_change,
    volume := q.volume,
    timestamp := nowIso,
    previous_close := pyRound2 previous_close,
    currency := "INR", exchange := "NSE", market_state := q.market_state,
    is_demo := false }

/-- Handling of a 200 response body (lines 68-74): response.json() raises on
    malformed JSON (re-raised by the generic handler, line 79-81), a payload
    with an error or status key raises an API error (lines 71-72), otherwise
    the quote is normalized. -/
def handleBody (b : Body) (symbol nowIso : String) : Except PyErr StockQuote :=
  match b with
  | .malformed => .error (.valueError "Expecting value")
  | .errPayload => .error (.providerError "API Error")
  | .fields q => .ok (normalizeQuote q symbol nowIso)

/-- TwelveDataProvider.get_stock_quote (lines 36-81): returns the outcome and
    the number of HTTP requests made. The first request is made (line 58); ONLY
    a non-200 status triggers the single retry (lines 60-63); a timeout
    surfaces as httpx.TimeoutException and is caught and re-raised at lines
    76-78 without any retry; a malformed or error-bearing 200 payload raises
    without any retry. -/
def tdGetStockQuote (r1 r2 : Wire) (symbol nowIso : String) :
    Except PyErr StockQuote × ℕ :=
  match r1 with
  | .timeout => (.error (.providerError "Request timeout"), 1)
  | .resp s1 b1 =>
      if s1 = 200 then (handleBody b1 symbol nowIso, 1)
      else
        match r2 with
        | .timeout => (.error (.providerError "Request timeout"), 2)
        | .resp s2 b2 =>
            if s2 = 200 then (handleBody b2 symbol nowIso, 2)
            else (.error (.providerError "HTTP error status"), 2)

/-! ## Stock service (app/services/stock_service.py) -/

/-- The suffix-stripping step of _clean_symbol (lines 249-250). -/
def stripBourseSuffix (s : String) : String :=
  if pyEndsWith s ".NS" || pyEndsWith s ".BO" then s.dropRight 3 else s

/-- StockService._clean_symbol (lines 240-256): reject the empty symbol, strip
    whitespace, uppercase, strip a trailing .NS or .BO, reject anything not
    alphanumeric. -/
def cleanSymbol (symbol : String) : Except PyErr String :=
  if symbol = "" then .error (.valueError "Symbol cannot be empty")
  else
    let clean := stripBourseSuffix (pyUpper (pyStrip symbol))
    if pyIsAlnum clean = false then
      .error (.valueError "Invalid symbol format")
    else .ok clean

/-- StockService.get_stock_quote (lines 37-73): validate and clean the symbol
    FIRST, then delegate to cache_service.get_or_fetch with the cleaned symbol
    both as the cache key and as the symbol the provider lambda closes over.
    A ValueError from the cleaning propagates before any cache or provider
    access. The producer is indexed by the symbol it is built for. -/
def svcGetStockQuote {α : Type} (h : String → String)
    (producer : String → ℕ → Except PyErr α) (st : CacheState α)
    (symbol : String) (now : ℚ) : Except PyErr α × CacheState α :=
  match cleanSymbol symbol with
  | .error e => (.error e, st)
  | .ok clean => getOrFetch h (producer clean) st "stock_quote" clean true now

/-- StockService.get_historical_data (lines 75-112): same shape, with cache
    key clean_symbol underscore period in the historical_data cache. -/
def svcGetHistoricalData {α : Type} (h : String → String)
    (producer : String → ℕ → Except PyErr α) (st : CacheState α)
    (symbol period : String) (now : ℚ) : Except PyErr α × CacheState α :=
  match cleanSymbol symbol with
  | .error e => (.error e, st)
  | .ok clean =>
      getOrFetch h (producer clean) st "historical_data" (clean ++ "_" ++ period) true now

/-- StockService.get_company_profile (lines 114-149). -/
def svcGetCompanyProfile {α : Type} (h : String → String)
    (producer : String → ℕ → Except PyErr α) (st : CacheState α)
    (symbol : String) (now : ℚ) : Except PyErr α × CacheState α :=
  match cleanSymbol symbol with
  | .error e => (.error e, st)
  | .ok clean => getOrFetch h (producer clean) st "company_profile" clean true now

/-! ## Concrete executions used to settle individual claims -/

/-- Hash stand-in for the C2 runs. -/
def c2H : String → String := fun _ => "k"

/-- Producer for the C2 runs: invocation i yields 100 + i. -/
def c2Producer : ℕ → Except PyErr ℕ := fun i => .ok (100 + i)

/-- C2: a quote stored at t = 0 (ttl 60 for stock_quote). -/
def c2Stored : CacheState ℕ :=
  (getOrFetch c2H c2Producer ⟨[], [], 0⟩ "stock_quote" "RELIANCE" true 0).2

/-- C2: two concurrent reads of the stale entry at t = 90. -/
def c2Reads : List (Except PyErr ℕ) × CacheState ℕ :=
  getOrFetchIter c2H c2Producer "stock_quote" "RELIANCE" true 90 2 c2Stored

/-- C2: the queued background refreshes then run. -/
def c2Final : CacheState ℕ := runTasks c2Producer 90 c2Reads.2

/-- Hash stand-in for the C3 run. -/
def c3H : String → String := fun _ => "k"

/-- Producer for the C3 run. -/
def c3Producer : ℕ → Except PyErr ℕ := fun i => .ok (100 + i)

/-- C3: a quote stored at t = 0 (ttl 60 for stock_quote). -/
def c3Stored : CacheState ℕ :=
  (getOrFetch c3H c3Producer ⟨[], [], 0⟩ "stock_quote" "RELIANCE" true 0).2

/-- C3: a read of that entry at t = 200, past the claimed 2*ttl = 120 horizon. -/
def c3Read : Except PyErr ℕ × CacheState ℕ :=
  getOrFetch c3H c3Producer c3Stored "stock_quote" "RELIANCE" true 200

/-- C8: fixed unit draws for the generic-symbol branch (unused for RELIANCE). -/
def c8Ir : InfoRand := ⟨1/2, 1/2, 1/2, 1/2⟩

/-- C8: a configured provider whose call fails. -/
def c8Fail : ProviderOutcome := some (.error (.providerError "boom"))

/-- C8: first request through the auto chain with both providers failing,
    gauss draw 1/100, hour bucket b. -/
def c8First : Except PyErr StockQuote :=
  factoryGetStockQuote .auto c8Fail c8Fail "RELIANCE" c8Ir (1/100) (1/2) "t1" "b"

/-- C8: second request in the same hour bucket b, gauss draw 1/50. -/
def c8Second : Except PyErr StockQuote :=
  factoryGetStockQuote .auto c8Fail c8Fail "RELIANCE" c8Ir (1/50) (1/2) "t2" "b"

/-! ## Helper lemmas -/

theorem find?_filter_ne_none {α : Type} (s : List (String × α)) (k : String) :
    (s.filter (fun p => !(p.1 == k))).find? (fun p => p.1 == k) = none := by
  induction s with
  | nil => rfl
  | cons a l ih =>
      by_cases hak : a.1 = k
      · simp [List.filter_cons, hak, ih]
      · have hbeq : (a.1 == k) = false := by simp [hak]
        simp [List.filter_cons, hbeq, List.find?, ih]

theorem storeGet_storeDel {α : Type} (s : Store α) (k : String) (now : ℚ) :
    storeGet (storeDel s k) k now = none := by
  unfold storeGet storeDel
  rw [find?_filter_ne_none]

theorem runTask_producerCalls {α : Type} (producer : ℕ → Except PyErr α) (now : ℚ)
    (st : CacheState α) (t : RefreshTask) :
    (runTask producer now st t).producerCalls = st.producerCalls + 1 := by
  unfold runTask
  cases producer st.producerCalls <;> rfl

theorem foldl_runTask_producerCalls {α : Type} (producer : ℕ → Except PyErr α)
    (now : ℚ) (ts : List RefreshTask) :
    ∀ st : CacheState α,
      (ts.foldl (runTask producer now) st).producerCalls = st.producerCalls + ts.length := by
  induction ts with
  | nil => intro st; simp
  | cons t ts ih =>
      intro st
      rw [List.foldl_cons, ih, runTask_producerCalls, List.length_cons]
      omega

theorem runTasks_producerCalls {α : Type} (producer : ℕ → Except PyErr α)
    (now : ℚ) (st : CacheState α) :
    (runTasks producer now st).producerCalls = st.producerCalls + st.tasks.length := by
  unfold runTasks
  rw [foldl_runTask_producerCalls]

theorem pyChoice_ok (l : List String) (u : ℚ) (hl : l ≠ []) (hu : UnitDraw u) :
    ∃ x, pyChoice l u = .ok x := by
  obtain ⟨hu0, hu1⟩ := hu
  have hlen : 0 < l.length := List.length_pos.mpr hl
  have hlenq : (0 : ℚ) < (l.length : ℚ) := by exact_mod_cast hlen
  have hmul : u * (l.length : ℚ) < (l.length : ℚ) := by
    calc u * (l.length : ℚ) < 1 * (l.length : ℚ) := by
          exact mul_lt_mul_of_pos_right hu1 hlenq
      _ = (l.length : ℚ) := one_mul _
  have hfl : ⌊u * (l.length : ℚ)⌋ < (l.length : ℤ) := by
    rw [Int.floor_lt]
    exact_mod_cast hmul
  have hnn : 0 ≤ ⌊u * (l.length : ℚ)⌋ :=
    Int.floor_nonneg.mpr (mul_nonneg hu0 (le_of_lt hlenq))
  have hidx : (⌊u * (l.length : ℚ)⌋).toNat < l.length := by
    omega
  unfold pyChoice
  cases hget : l.get? (⌊u * (l.length : ℚ)⌋).toNat with
  | none =>
      rw [List.get?_eq_none] at hget
      omega
  | some x => exact ⟨x, rfl⟩

theorem STOCK_DATABASE_base_price_pos :
    ∀ p ∈ STOCK_DATABASE, 0 < p.2.base_price := by decide

theorem getStockInfo_ok (symbol : String) (ir : InfoRand)
    (hB : 0 ≤ ir.uBase) (hS : UnitDraw ir.uSector) :
    ∃ info, getStockInfo symbol ir = .ok info ∧ 0 < info.base_price := by
  cases hf : STOCK_DATABASE.find? (fun p => p.1 == pyUpper symbol) with
  | some p =>
      refine ⟨p.2, ?_, STOCK_DATABASE_base_price_pos p (List.mem_of_find?_eq_some hf)⟩
      simp only [getStockInfo, hf]
  | none =>
      obtain ⟨x, hx⟩ := pyChoice_ok
        ["Technology", "Finance", "Healthcare", "Energy", "Consumer Goods"]
        ir.uSector (by simp) hS
      cases hg : getStockInfo symbol ir with
      | error e =>
          simp only [getStockInfo, hf, hx] at hg
          exact Except.noConfusion hg
      | ok info =>
          refine ⟨info, rfl, ?_⟩
          simp only [getStockInfo, hf, hx] at hg
          injection hg with h
          subst h
          show 0 < pyUniform 100 5000 ir.uBase
          unfold pyUniform
          nlinarith

theorem getDemoQuote_isOk (symbol : String) (ir : InfoRand) (g uVolume : ℚ)
    (nowIso bucket : String) (pc : PriceCache)
    (hB : 0 ≤ ir.uBase) (hS : UnitDraw ir.uSector) :
    ∃ q pc2, getDemoQuote symbol ir g uVolume nowIso bucket pc = .ok (q, pc2) ∧
      q.is_demo = true := by
  obtain ⟨info, hinfo, hpos⟩ := getStockInfo_ok symbol ir hB hS
  have hne : ¬ (info.base_price = 0) := ne_of_gt hpos
  cases hq : getDemoQuote symbol ir g uVolume nowIso bucket pc with
  | error e =>
      simp only [getDemoQuote, hinfo, pyDiv, if_neg hne] at hq
      exact Except.noConfusion hq
  | ok r =>
      obtain ⟨q, pc2⟩ := r
      refine ⟨q, pc2, rfl, ?_⟩
      simp only [getDemoQuote, hinfo, pyDiv, if_neg hne] at hq
      injection hq with h
      rw [Prod.mk.injEq] at h
      rw [← h.1]

/-! ## Claim theorems -/

/-- C1: the claim states that N concurrent coalesce calls sharing a key make
    the producer execute exactly once and deliver the identical outcome to
    every caller. The code violates the delivery half: with two overlapping
    callers under the deterministic FIFO scheduling of the asyncio event loop,
    the waiter holds the threading lock across its await (line 63), the
    producer task completes and resumes the installing caller first, and the
    installing caller then blocks forever acquiring that lock in its cleanup
    (line 75). The machine reaches a permanently stuck state in which the
    producer ran exactly once but NEITHER caller ever observes the outcome. -/
theorem C1_two_coalesced_callers_deadlock {α : Type} (v : α) :
    (coRun v 4 (coInit α)).stuck = true ∧
    (coRun v 4 (coInit α)).producerRuns = 1 ∧
    (coRun v 4 (coInit α)).doneA = none ∧
    (coRun v 4 (coInit α)).doneB = none ∧
    coStep v (coRun v 4 (coInit α)) = coRun v 4 (coInit α) :=
  ⟨rfl, rfl, rfl, rfl, rfl⟩

/-- C3: the claim states that an entry older than 2*ttl is treated as absent
    and read via a synchronous fetch. The code violates this: a stock_quote
    entry (ttl 60) stored at t = 0 and read at t = 200 (past 2*ttl = 120) is
    still served from the cache as a stale hit - the old value 100 is
    returned, no synchronous producer call happens, and one background refresh
    is scheduled - because the store eviction uses the default 3600 s ttl, not
    the 2*ttl horizon the source comments announce. -/
theorem C3_read_past_grace_is_served_stale :
    c3Read.1 = .ok 100 ∧
    c3Read.2.producerCalls = c3Stored.producerCalls ∧
    c3Read.2.tasks.length = 1 ∧
    ((60 : ℚ) * 2 < 200 - 0) := by
  refine ⟨?_, ?_, ?_, by norm_num⟩ <;>
    norm_num [c3Read, c3Stored, getOrFetch, getOrFetchMiss, getCacheEntry, storeGet,
      setCacheEntry, storeSet, buildCacheKey, cacheSettingsGet, CACHE_SETTINGS,
      c3H, c3Producer, defaultStoreTtl, List.find?]

/-- C5 counterexample: the claim states every transient failure - including a
    timeout - causes exactly one retry (hence two requests) before the attempt
    fails. On a first-request timeout the code makes exactly ONE request and
    raises with no retry. -/
theorem C5_counterexample_timeout_not_retried :
    tdGetStockQuote .timeout .timeout "RELIANCE" "t"
      = (.error (.providerError "Request timeout"), 1) ∧ (1 : ℕ) ≠ 2 :=
  ⟨rfl, by decide⟩

/-- C5 (amended): at most two requests are ever made per attempt; ONLY a
    non-success HTTP status on the first request causes the single retry; a
    timeout or a malformed or error-bearing 200 payload makes the attempt fail
    immediately after one request, with no retry. -/
theorem C5_retry_only_on_bad_status (r2 : Wire) (s : ℕ) (b : Body)
    (sym t : String) :
    (∀ r1, (tdGetStockQuote r1 r2 sym t).2 ≤ 2) ∧
    (tdGetStockQuote .timeout r2 sym t
       = (.error (.providerError "Request timeout"), 1)) ∧
    (s ≠ 200 → (tdGetStockQuote (.resp s b) r2 sym t).2 = 2) ∧
    (tdGetStockQuote (.resp 200 .malformed) r2 sym t
       = (.error (.valueError "Expecting value"), 1)) ∧
    (tdGetStockQuote (.resp 200 .errPayload) r2 sym t
       = (.error (.providerError "API Error"), 1)) := by
  refine ⟨?_, rfl, ?_, rfl, rfl⟩
  · intro r1
    cases r1 with
    | timeout => simp [tdGetStockQuote]
    | resp s1 b1 =>
        by_cases h1 : s1 = 200
        · simp [tdGetStockQuote, h1]
        · cases r2 with
          | timeout => simp [tdGetStockQuote, h1]
          | resp s2 b2 =>
              by_cases h2 : s2 = 200 <;> simp [tdGetStockQuote, h1, h2]
  · intro hs
    cases r2 with
    | timeout => simp [tdGetStockQuote, hs]
    | resp s2 b2 =>
        by_cases h2 : s2 = 200 <;> simp [tdGetStockQuote, hs, h2]

/-- C5 witness: the amended statement applied with a 500 status on the first
    request and a timeout on the retry. -/
theorem C5_retry_only_on_bad_status_witness :
    (tdGetStockQuote (.resp 500 .malformed) .timeout "RELIANCE" "t").2 = 2 :=
  (C5_retry_only_on_bad_status .timeout 500 .malformed "RELIANCE" "t").2.2.1
    (by decide)

/-- C6: when the key misses the cache (absent, or evicted past the retention
    horizon) and the producer fails, get_or_fetch propagates exactly that
    error, the store is unchanged (the error is not cached), and no background
    task is queued; only the invocation counter records the one failed
    producer run. -/
theorem C6_producer_error_propagates_uncached {α : Type} (h : String → String)
    (producer : ℕ → Except PyErr α) (st : CacheState α)
    (cache_type key : String) (now : ℚ) (e : PyErr)
    (hMiss : storeGet st.cache (buildCacheKey h cache_type key) now = none)
    (hErr : producer st.producerCalls = .error e) :
    getOrFetch h producer st cache_type key true now =
      (.error e, { st with producerCalls := st.producerCalls + 1 }) := by
  simp only [getOrFetch, getCacheEntry, getOrFetchMiss, hMiss, hErr]

/-- C6 witness: a miss on an empty cache with a failing producer. -/
theorem C6_producer_error_propagates_uncached_witness :
    getOrFetch (fun _ => "k") (fun _ => .error (.providerError "down"))
        (⟨[], [], 0⟩ : CacheState ℕ) "stock_quote" "TCS" true 5 =
      (.error (.providerError "down"), ⟨[], [], 1⟩) :=
  C6_producer_error_propagates_uncached (fun _ => "k")
    (fun _ => .error (.providerError "down")) ⟨[], [], 0⟩
    "stock_quote" "TCS" 5 (.providerError "down") rfl rfl

/-- C9: invalidating a key makes an immediate read of that key a miss (the
    entry is reported absent), and invalidating the same key again is a no-op
    that leaves the whole cache state unchanged (and raises nothing: the
    operation is total). -/
theorem C9_invalidate_then_miss_and_idempotent {α : Type} (h : String → String)
    (st : CacheState α) (cache_type key : String) (now : ℚ) :
    getCacheEntry (invalidate h st cache_type key now).cache
        (buildCacheKey h cache_type key) now = none ∧
    invalidate h (invalidate h st cache_type key now) cache_type key now
      = invalidate h st cache_type key now := by
  by_cases hc : storeContains st.cache (buildCacheKey h cache_type key) now = true
  · have hdel := storeGet_storeDel st.cache (buildCacheKey h cache_type key) now
    have hc2 : storeContains (storeDel st.cache (buildCacheKey h cache_type key))
        (buildCacheKey h cache_type key) now = false := by
      unfold storeContains
      rw [hdel]
      rfl
    constructor
    · simp [invalidate, hc, getCacheEntry, hdel]
    · simp [invalidate, hc, hc2]
  · have hcf : storeContains st.cache (buildCacheKey h cache_type key) now = false := by
      simpa using hc
    have hget : storeGet st.cache (buildCacheKey h cache_type key) now = none := by
      cases hg : storeGet st.cache (buildCacheKey h cache_type key) now with
      | none => rfl
      | some v =>
          unfold storeContains at hcf
          rw [hg] at hcf
          simp at hcf
    constructor
    · simp [invalidate, hcf, getCacheEntry, hget]
    · simp [invalidate, hcf]

/-- A single stale-hit step of get_or_fetch: helper for the C2 amendment. -/
theorem getOrFetch_stale_step {α : Type} (h : String → String)
    (producer : ℕ → Except PyErr α) (s : CacheState α)
    (cache_type key : String) (now : ℚ) (entry : CacheEntry α)
    (hGet : storeGet s.cache (buildCacheKey h cache_type key) now = some entry)
    (hStale : (entry.ttl : ℚ) < now - entry.timestamp) :
    getOrFetch h producer s cache_type key true now =
      (Except.ok entry.data,
       { s with tasks := s.tasks ++
           [⟨buildCacheKey h cache_type key, cache_type, key,
             cacheSettingsGet cache_type⟩] }) := by
  simp only [getOrFetch, getCacheEntry, hGet, if_pos hStale]
  simp

/-- Iterated stale hits: helper for the C2 amendment. -/
theorem getOrFetchIter_stale {α : Type} (h : String → String)
    (producer : ℕ → Except PyErr α) (cache_type key : String) (now : ℚ)
    (entry : CacheEntry α) (cache0 : Store α)
    (hGet : storeGet cache0 (buildCacheKey h cache_type key) now = some entry)
    (hStale : (entry.ttl : ℚ) < now - entry.timestamp) :
    ∀ (M : ℕ) (s : CacheState α), s.cache = cache0 →
      (getOrFetchIter h producer cache_type key true now M s).1
          = List.replicate M (Except.ok entry.data) ∧
        (getOrFetchIter h producer cache_type key true now M s).2.cache = s.cache ∧
        (getOrFetchIter h producer cache_type key true now M s).2.producerCalls
          = s.producerCalls ∧
        (getOrFetchIter h producer cache_type key true now M s).2.tasks
          = s.tasks ++ List.replicate M
              ⟨buildCacheKey h cache_type key, cache_type, key,
               cacheSettingsGet cache_type⟩ := by
  intro M
  induction M with
  | zero => intro s hs; simp [getOrFetchIter]
  | succ M ih =>
      intro s hs
      have hone := getOrFetch_stale_step h producer s cache_type key now entry
        (by rw [hs]; exact hGet) hStale
      have hnext := ih { s with tasks := s.tasks ++
          [⟨buildCacheKey h cache_type key, cache_type, key,
            cacheSettingsGet cache_type⟩] } hs
      simp only [getOrFetchIter, hone] at hnext ⊢
      refine ⟨?_, hnext.2.1, hnext.2.2.1, ?_⟩
      · rw [hnext.1, List.replicate_succ]
      · rw [hnext.2.2.2, List.replicate_succ, List.append_assoc]
        simp

/-- C2 (amended): a read of a stale entry with stale-while-revalidate enabled
    returns the stale value immediately and queues ONE background refresh per
    read; the refresh task calls the producer directly instead of going
    through the Coalescer, so M concurrent stale reads of the same key lead to
    M producer invocations once the queued refreshes run - not one. -/
theorem C2_stale_reads_spawn_M_refreshes {α : Type} (h : String → String)
    (producer : ℕ → Except PyErr α) (st : CacheState α)
    (cache_type key : String) (now : ℚ) (M : ℕ) (entry : CacheEntry α)
    (hGet : storeGet st.cache (buildCacheKey h cache_type key) now = some entry)
    (hStale : (entry.ttl : ℚ) < now - entry.timestamp) :
    (getOrFetchIter h producer cache_type key true now M st).1
        = List.replicate M (Except.ok entry.data) ∧
    (getOrFetchIter h producer cache_type key true now M st).2.cache = st.cache ∧
    (getOrFetchIter h producer cache_type key true now M st).2.producerCalls
        = st.producerCalls ∧
    (runTasks producer now
        (getOrFetchIter h producer cache_type key true now M st).2).producerCalls
      = st.producerCalls + st.tasks.length + M := by
  obtain ⟨h1, h2, h3, h4⟩ := getOrFetchIter_stale h producer cache_type key now entry
    st.cache hGet hStale M st rfl
  refine ⟨h1, h2, h3, ?_⟩
  rw [runTasks_producerCalls, h3, h4]
  simp [Nat.add_assoc]

/-- C2 witness: a stock_quote entry stored at t = 0 (ttl 60), M = 2 reads at
    t = 90; both reads return the stale value and the producer then runs twice. -/
theorem C2_stale_reads_spawn_M_refreshes_witness :
    (getOrFetchIter (fun _ => "x") (fun i => Except.ok (100 + i)) "stock_quote" "K"
        true 90 2 (⟨[("stock_quote:x:K", ⟨⟨7, 0, 60, false⟩, 3600⟩)], [], 1⟩ : CacheState ℕ)).1
        = List.replicate 2 (Except.ok 7) ∧
    (getOrFetchIter (fun _ => "x") (fun i => Except.ok (100 + i)) "stock_quote" "K"
        true 90 2 (⟨[("stock_quote:x:K", ⟨⟨7, 0, 60, false⟩, 3600⟩)], [], 1⟩ : CacheState ℕ)).2.cache
        = [("stock_quote:x:K", ⟨⟨7, 0, 60, false⟩, 3600⟩)] ∧
    (getOrFetchIter (fun _ => "x") (fun i => Except.ok (100 + i)) "stock_quote" "K"
        true 90 2 (⟨[("stock_quote:x:K", ⟨⟨7, 0, 60, false⟩, 3600⟩)], [], 1⟩ : CacheState ℕ)).2.producerCalls
        = 1 ∧
    (runTasks (fun i => Except.ok (100 + i)) 90
        (getOrFetchIter (fun _ => "x") (fun i => Except.ok (100 + i)) "stock_quote" "K"
          true 90 2 (⟨[("stock_quote:x:K", ⟨⟨7, 0, 60, false⟩, 3600⟩)], [], 1⟩ : CacheState ℕ)).2).producerCalls
      = 1 + 0 + 2 :=
  C2_stale_reads_spawn_M_refreshes (fun _ => "x") (fun i => Except.ok (100 + i))
    ⟨[("stock_quote:x:K", ⟨⟨7, 0, 60, false⟩, 3600⟩)], [], 1⟩ "stock_quote" "K" 90 2
    ⟨7, 0, 60, false⟩ rfl (by norm_num)

/-- C2 counterexample: the claim says M concurrent stale reads trigger exactly
    one refresh routed through the Coalescer. In the code the refresh task
    awaits fetch_func directly, so after a store at t = 0 and two stale reads
    at t = 90 the queued refreshes invoke the producer twice (calls go from 1
    to 3), not once. -/
theorem C2_counterexample_two_refreshes :
    c2Reads.1 = [Except.ok 100, Except.ok 100] ∧
    c2Reads.2.tasks.length = 2 ∧
    c2Stored.producerCalls = 1 ∧
    c2Final.producerCalls = 3 ∧
    c2Final.producerCalls - c2Stored.producerCalls ≠ 1 := by
  refine ⟨?_, ?_, ?_, ?_, ?_⟩ <;>
    norm_num [c2Reads, c2Final, c2Stored, getOrFetchIter, getOrFetch, getOrFetchMiss,
      getCacheEntry, storeGet, setCacheEntry, storeSet, buildCacheKey, cacheSettingsGet,
      CACHE_SETTINGS, c2H, c2Producer, defaultStoreTtl, List.find?, runTasks, runTask]

/-- C4: in the automatic fallback mode, for every symbol, if the primary
    attempt fails (provider not configured or call error) and the fallback
    attempt fails likewise, get_stock_quote returns synthetic demo data whose
    is_demo flag is True, and no exception reaches the caller. -/
theorem C4_exhausted_chain_serves_demo (primary fallback : ProviderOutcome)
    (symbol : String) (ir : InfoRand) (g uVolume : ℚ) (nowIso bucket : String)
    (hp : primary = none ∨ ∃ e, primary = some (.error e))
    (hf : fallback = none ∨ ∃ e, fallback = some (.error e))
    (hB : 0 ≤ ir.uBase) (hS : UnitDraw ir.uSector) :
    ∃ q, factoryGetStockQuote .auto primary fallback symbol ir g uVolume nowIso bucket
        = .ok q ∧ q.is_demo = true := by
  obtain ⟨q, pc2, hq, hd⟩ := getDemoQuote_isOk symbol ir g uVolume nowIso bucket [] hB hS
  have hdemo : factoryGetDemoQuote symbol ir g uVolume nowIso bucket = .ok q := by
    unfold factoryGetDemoQuote
    rw [hq]
    rfl
  have hpe : ∃ e1, tryProviderQuote primary "Primary provider not available"
      = .error e1 := by
    rcases hp with hpn | ⟨e, hpe⟩
    · exact ⟨_, by rw [hpn]; rfl⟩
    · exact ⟨e, by rw [hpe]; rfl⟩
  have hfe : ∃ e2, tryProviderQuote fallback "Fallback provider not available"
      = .error e2 := by
    rcases hf with hfn | ⟨e, hfe⟩
    · exact ⟨_, by rw [hfn]; rfl⟩
    · exact ⟨e, by rw [hfe]; rfl⟩
  obtain ⟨e1, he1⟩ := hpe
  obtain ⟨e2, he2⟩ := hfe
  refine ⟨q, ?_, hd⟩
  simp only [factoryGetStockQuote, he1, he2, hdemo]

/-- C4 witness: no provider configured at all, known symbol, fixed draws. -/
theorem C4_exhausted_chain_serves_demo_witness :
    ∃ q, factoryGetStockQuote .auto none none "TCS" ⟨0, 0, 0, 0⟩ 0 0 "t" "b"
        = .ok q ∧ q.is_demo = true :=
  C4_exhausted_chain_serves_demo none none "TCS" ⟨0, 0, 0, 0⟩ 0 0 "t" "b"
    (Or.inl rfl) (Or.inl rfl) (by norm_num) ⟨by norm_num, by norm_num⟩

/-- C7: the synthetic generator never raises: for every symbol (known or not),
    every period, and every randomness the underlying primitives can produce,
    get_demo_quote, get_demo_historical and get_demo_profile all return a
    record. (No fault arises internally, so no exception propagates.) -/
theorem C7_demo_generator_never_raises (symbol period : String) (ir : InfoRand)
    (g uVolume uEmployees : ℚ) (nowIso bucket : String) (pc : PriceCache)
    (hr : HistRand) (nowDay : ℤ)
    (hB : 0 ≤ ir.uBase) (hS : UnitDraw ir.uSector) :
    (∃ r, getDemoQuote symbol ir g uVolume nowIso bucket pc = .ok r) ∧
    (∃ hd, getDemoHistorical symbol period ir hr nowDay = .ok hd) ∧
    (∃ p, getDemoProfile symbol ir uEmployees = .ok p) := by
  obtain ⟨info, hinfo, hpos⟩ := getStockInfo_ok symbol ir hB hS
  obtain ⟨q, pc2, hq, hdq⟩ := getDemoQuote_isOk symbol ir g uVolume nowIso bucket pc hB hS
  refine ⟨⟨(q, pc2), hq⟩, ⟨?_, ?_⟩, ⟨?_, ?_⟩⟩
  · exact { symbol := pyUpper symbol,
            data := generateHistoricalPoints info.base_price info.volatility period hr nowDay,
            period := period, is_demo := true }
  · simp only [getDemoHistorical, hinfo]
  · exact { symbol := pyUpper symbol, name := info.name,
            description := some info.description, sector := some info.sector,
            industry := some info.industry, market_cap := some info.market_cap,
            market_cap_formatted := some (demoFormatLargeNumber info.market_cap),
            employees := some (pyRandint 50000 500000 uEmployees),
            website := some ("https://www." ++ pyLower symbol ++ ".com"),
            is_demo := true }
  · simp only [getDemoProfile, hinfo]

/-- C7 witness: an unknown symbol (generic branch) and the one-day period. -/
theorem C7_demo_generator_never_raises_witness :
    (∃ r, getDemoQuote "ZZZQ" ⟨1/2, 1/2, 1/2, 1/2⟩ 0 (1/2) "t" "b" [] = .ok r) ∧
    (∃ hd, getDemoHistorical "ZZZQ" "1d" ⟨1/2, 1/2, 1/2, 1/2⟩
        ⟨fun _ => 0, fun _ => 0, fun _ => 0, fun _ => 1/2⟩ 0 = .ok hd) ∧
    (∃ p, getDemoProfile "ZZZQ" ⟨1/2, 1/2, 1/2, 1/2⟩ (1/2) = .ok p) :=
  C7_demo_generator_never_raises "ZZZQ" "1d" ⟨1/2, 1/2, 1/2, 1/2⟩ 0 (1/2) (1/2)
    "t" "b" [] ⟨fun _ => 0, fun _ => 0, fun _ => 0, fun _ => 1/2⟩ 0
    (by norm_num) ⟨by norm_num, by norm_num⟩

/-- C8 counterexample: the claim says two synthetic requests for the same
    identifier in the same hourly bucket return the same generated price
    through the fallback chain. The factory constructs a fresh
    DemoDataService per call, so the hourly price cache is empty each time
    and two requests in the same bucket draw independent prices: with gauss
    draws 1/100 and 1/50 the chain returns 2979.5 and then 3009 for RELIANCE. -/
theorem C8_counterexample_chain_prices_differ :
    c8First.map (fun q => q.price) = .ok (5959/2) ∧
    c8Second.map (fun q => q.price) = .ok 3009 ∧
    ((5959 : ℚ)/2) ≠ 3009 := by
  refine ⟨?_, ?_, by norm_num⟩ <;>
    · simp [c8First, c8Second, factoryGetStockQuote, factoryGetDemoQuote, c8Fail, c8Ir,
        tryProviderQuote, getDemoQuote, getStockInfo, STOCK_DATABASE, pyUpper,
        List.find?, generateRealisticPrice, pyDiv, pyRound2, pyRandint, pyUniform,
        Except.map]
      norm_num [Int.floor_eq_iff]

/-- C8 (amended): the hourly consistency does hold WITHIN one DemoDataService
    instance: for the same symbol and hour bucket, the second
    _generate_realistic_price call returns exactly the price the first call
    returned (whatever draws and reference rows each call uses), because the
    first call populates the instance price cache that the second call hits. -/
theorem C8_same_instance_price_consistent (symbol bucket : String)
    (info1 info2 : StockInfo) (g1 g2 : ℚ) (pc : PriceCache) :
    (generateRealisticPrice symbol info2 bucket g2
        (generateRealisticPrice symbol info1 bucket g1 pc).2).1
      = (generateRealisticPrice symbol info1 bucket g1 pc).1 := by
  unfold generateRealisticPrice
  cases hfind : pc.find? (fun p => p.1 == symbol ++ "_" ++ bucket) with
  | some p => simp [hfind]
  | none => simp [hfind, List.find?]

/-- C10: every public StockService operation validates the symbol first: it
    fails with a ValueError - touching neither the cache nor a provider -
    exactly when the symbol is empty or its stripped, uppercased,
    suffix-stripped form is not alphanumeric; otherwise that cleaned form is
    the key used for the cache and the provider call, so reliance.ns and
    RELIANCE address the same cache entry. -/
theorem C10_symbol_validation {α : Type} (h : String → String)
    (producer : String → ℕ → Except PyErr α) (st : CacheState α)
    (symbol period : String) (now : ℚ) :
    ((∃ e, cleanSymbol symbol = .error e) ↔
      (symbol = "" ∨ pyIsAlnum (stripBourseSuffix (pyUpper (pyStrip symbol))) = false)) ∧
    (∀ e, cleanSymbol symbol = .error e →
      (∃ m, e = .valueError m) ∧
      svcGetStockQuote h producer st symbol now = (.error e, st) ∧
      svcGetHistoricalData h producer st symbol period now = (.error e, st) ∧
      svcGetCompanyProfile h producer st symbol now = (.error e, st)) ∧
    (∀ clean, cleanSymbol symbol = .ok clean →
      clean = stripBourseSuffix (pyUpper (pyStrip symbol)) ∧
      svcGetStockQuote h producer st symbol now
        = getOrFetch h (producer clean) st "stock_quote" clean true now ∧
      svcGetHistoricalData h producer st symbol period now
        = getOrFetch h (producer clean) st "historical_data" (clean ++ "_" ++ period) true now ∧
      svcGetCompanyProfile h producer st symbol now
        = getOrFetch h (producer clean) st "company_profile" clean true now) ∧
    cleanSymbol "reliance.ns" = .ok "RELIANCE" ∧
    cleanSymbol "RELIANCE" = .ok "RELIANCE" := by
  refine ⟨?_, ?_, ?_, rfl, rfl⟩
  · constructor
    · rintro ⟨e, he⟩
      by_cases hemp : symbol = ""
      · exact Or.inl hemp
      · right
        by_cases halnum : pyIsAlnum (stripBourseSuffix (pyUpper (pyStrip symbol))) = false
        · exact halnum
        · exfalso
          simp only [cleanSymbol, if_neg hemp, halnum] at he
          simp at halnum
          rw [if_neg] at he
          · exact Except.noConfusion he
          · simp [halnum]
    · intro hbad
      rcases hbad with hemp | halnum
      · exact ⟨.valueError "Symbol cannot be empty", by simp [cleanSymbol, hemp]⟩
      · by_cases hemp : symbol = ""
        · exact ⟨.valueError "Symbol cannot be empty", by simp [cleanSymbol, hemp]⟩
        · exact ⟨.valueError "Invalid symbol format", by simp [cleanSymbol, hemp, halnum]⟩
  · intro e he
    refine ⟨?_, ?_, ?_, ?_⟩
    · unfold cleanSymbol at he
      by_cases hemp : symbol = ""
      · rw [if_pos hemp] at he
        exact ⟨"Symbol cannot be empty", (Except.error.injEq _ _).mp he.symm⟩
      · rw [if_neg hemp] at he
        by_cases halnum : pyIsAlnum (stripBourseSuffix (pyUpper (pyStrip symbol))) = false
        · rw [if_pos halnum] at he
          exact ⟨"Invalid symbol format", (Except.error.injEq _ _).mp he.symm⟩
        · rw [if_neg halnum] at he
          exact Except.noConfusion he
    · simp only [svcGetStockQuote, he]
    · simp only [svcGetHistoricalData, he]
    · simp only [svcGetCompanyProfile, he]
  · intro clean hc
    refine ⟨?_, ?_, ?_, ?_⟩
    · unfold cleanSymbol at hc
      by_cases hemp : symbol = ""
      · rw [if_pos hemp] at hc
        exact Except.noConfusion hc
      · rw [if_neg hemp] at hc
        by_cases halnum : pyIsAlnum (stripBourseSuffix (pyUpper (pyStrip symbol))) = false
        · rw [if_pos halnum] at hc
          exact Except.noConfusion hc
        · rw [if_neg halnum] at hc
          exact ((Except.ok.injEq _ _).mp hc).symm
    · simp only [svcGetStockQuote, hc]
    · simp only [svcGetHistoricalData, hc]
    · simp only [svcGetCompanyProfile, hc]

/-- C10 witness: an invalid symbol is rejected without touching the cache
    state, and the two spellings of RELIANCE clean to the same key. -/
theorem C10_symbol_validation_witness :
    svcGetStockQuote (fun _ => "x") (fun _ _ => Except.ok (0 : ℕ))
        (⟨[], [], 0⟩ : CacheState ℕ) "BAD*" 0
      = (.error (.valueError "Invalid symbol format"), ⟨[], [], 0⟩) ∧
    cleanSymbol "reliance.ns" = .ok "RELIANCE" :=
  ⟨((C10_symbol_validation (fun _ => "x") (fun _ _ => Except.ok (0 : ℕ))
      ⟨[], [], 0⟩ "BAD*" "1mo" 0).2.1
      (.valueError "Invalid symbol format") rfl).2.1,
   (C10_symbol_validation (fun _ => "x") (fun _ _ => Except.ok (0 : ℕ))
      (⟨[], [], 0⟩ : CacheState ℕ) "doesnotmatter" "1mo" 0).2.2.2.1⟩

end QuantPulse
